import Mathlib

/-
Verification development for the DM_Agent repository.

The embedding covers:
  * `core/settings.py`   — `get_image_size_tuple` (the size-string parser),
    with a model `pyInt` of CPython's `int()` applied to an ASCII string
    (surrounding whitespace stripped, optional sign, digits with single
    underscores between digits);
  * `image_gen/generator.py` — `ImageGenerator`: `load_model`,
    `enhance_prompt`, `generate`, `generate_batch`, `unload_model`.
    The mutable object state (`self.pipeline`, CUDA availability) is a
    `GenState`; the external collaborators (the diffusers pipeline, the
    ollama client, the clock) are an `Oracle` of outcomes; observable
    side effects (model load, enhancer call, pipeline run, cache clear,
    file save, the per-item progress print of `generate_batch`) are
    recorded in an event trace;
  * `mcp/server.py`      — `handle_call_tool` and the tool schemas from
    `handle_list_tools`, with collaborator invocations recorded as
    `CollabCall`s.

Python exceptions become `Except` values: the `ValueError` raised by a
failing size parse is `GenError.invalidRequest`, `torch.cuda.OutOfMemoryError`
is `GenError.memoryExhausted`, any other inference exception is
`GenError.inference`, a failing `from_pretrained` is `GenError.modelLoad`;
at the dispatch layer, the `ValueError` for an unknown tool is
`DispatchError.unknownOperation` and the `KeyError` for a missing required
argument is `DispatchError.missingArgument`.
-/

/-- Model of CPython `int()` digit parsing after the first digit: decimal
digits, a single underscore allowed between two digits. `acc` is the value
of the digits consumed so far. -/
def pyIntDigitsAux : Nat → List Char → Option Nat
  | acc, [] => some acc
  | acc, '_' :: c :: rest =>
    if c.isDigit then pyIntDigitsAux (acc * 10 + (c.toNat - 48)) rest else none
  | _, ['_'] => none
  | acc, c :: rest =>
    if c.isDigit then pyIntDigitsAux (acc * 10 + (c.toNat - 48)) rest else none

/-- Digit run of CPython `int()`: nonempty, starts with a digit, single
underscores only between digits. -/
def pyIntDigits : List Char → Option Nat
  | [] => none
  | c :: rest =>
    if c.isDigit then pyIntDigitsAux (c.toNat - 48) rest else none

/-- Surrounding-whitespace strip performed by CPython `int()`. -/
def trimChars (cs : List Char) : List Char :=
  ((cs.dropWhile Char.isWhitespace).reverse.dropWhile Char.isWhitespace).reverse

/-- Model of CPython `int(s)` for an ASCII character sequence: strip
surrounding whitespace, optional `+`/`-` sign, then a digit run. -/
def pyIntChars (cs : List Char) : Option Int :=
  match trimChars cs with
  | '-' :: rest => (pyIntDigits rest).map (fun n => -(n : Int))
  | '+' :: rest => (pyIntDigits rest).map (fun n => (n : Int))
  | rest => (pyIntDigits rest).map (fun n => (n : Int))

/-- CPython `int(s)` on a string. -/
def pyInt (s : String) : Option Int := pyIntChars s.toList

/-- Python `s.split(sep)` for a one-character separator, over the
character sequence: `acc` is the current (reversed) chunk. -/
def splitOnCharAux (sep : Char) : List Char → List Char → List (List Char)
  | acc, [] => [acc.reverse]
  | acc, c :: rest =>
    if c = sep then acc.reverse :: splitOnCharAux sep [] rest
    else splitOnCharAux sep (c :: acc) rest

/-- Python `s.split(sep)` for a one-character separator. -/
def splitOnChar (sep : Char) (cs : List Char) : List (List Char) :=
  splitOnCharAux sep [] cs

/-- `settings.default_image_size` (env default `"1024x1024"`). -/
def default_image_size : String := "1024x1024"

/-- `core/settings.py::get_image_size_tuple`: `size_str or default` (so
`None` and the falsy empty string fall back to the default), then
`width, height = map(int, size_str.split('x'))`.  `none` is the
propagated `ValueError` (unparseable component or not exactly two
components). -/
def get_image_size_tuple (size_str : Option String) : Option (Int × Int) :=
  let s := match size_str with
    | none => default_image_size
    | some t => if t = "" then default_image_size else t
  match (splitOnChar 'x' s.toList).map pyIntChars with
  | [some w, some h] => some (w, h)
  | _ => none

/-- Observable side effects of the generator, in program order. -/
inductive Event where
  | load
  | enhanceCall (basic_prompt : String) (style : Option String)
  | run (prompt : String) (width height : Int) (steps : Int) (guidance : ℚ)
  | emptyCache
  | save (path : String)
  | itemStart (i : Nat)
deriving DecidableEq

/-- Failure modes of the `pipeline(...)` call in `generate`. -/
inductive RunErr where
  | oom
  | other
deriving DecidableEq

/-- The raw image produced by the pipeline (its PNG payload past the
signature, as produced by `PIL.Image.save(format='PNG')`). -/
structure RawImage where
  body : List Nat
deriving DecidableEq

/-- Outcomes of the external collaborators for one `generate` call:
`StableDiffusion3Pipeline.from_pretrained`, the ollama
`client.generate` call, the pipeline inference call, and the clock. -/
structure Oracle where
  loadResult : Except Unit Unit
  enhanceResult : Except Unit String
  runResult : Except RunErr RawImage
  timestamp : Nat
  duration : ℚ

/-- Mutable state of an `ImageGenerator` instance: `self.pipeline`
(`none` = `None`), plus the ambient `torch.cuda.is_available()`. -/
structure GenState where
  pipeline : Option Unit
  cudaAvailable : Bool
deriving DecidableEq

/-- Errors propagated out of `ImageGenerator` methods, labelled with the
spec's taxonomy (`ModelLoadError`, `InvalidRequestError`,
`MemoryExhaustedError`, `InferenceError`). -/
inductive GenError where
  | modelLoad
  | invalidRequest
  | memoryExhausted
  | inference
deriving DecidableEq

/-- The spec label for each runtime inference failure. -/
def runErrToGenError : RunErr → GenError
  | .oom => .memoryExhausted
  | .other => .inference

/-- The dict returned by a successful `generate`. -/
structure GenResult where
  image_path : String
  image_data : List Nat
  prompt : String
  size : String
  generation_time : ℚ
  steps : Int
  guidance_scale : ℚ
deriving DecidableEq

/-- The hard-coded fallback qualifiers appended by `enhance_prompt`. -/
def fallbackSuffix : String := ", high quality, detailed, professional photography"

/-- `ImageGenerator.enhance_prompt`: returns the trimmed service response;
every exception from the external call is caught, and the deterministic
fallback `f"{basic_prompt}, high quality, detailed, professional photography"`
is returned instead. `style_preference` only feeds the request text sent to
the service, so it does not affect the returned value. -/
def enhance_prompt (serviceResult : Except Unit String) (basic_prompt : String)
    (style_preference : Option String) : String :=
  match serviceResult with
  | .ok response => response.trim
  | .error _ => basic_prompt ++ fallbackSuffix

/-- `ImageGenerator.load_model`: returns immediately when `self.pipeline`
is not `None`; otherwise performs the underlying load (one `Event.load`),
storing the pipeline, or propagates the load failure. -/
def load_model (loadResult : Except Unit Unit) (st : GenState) :
    GenState × List Event × Except Unit Unit :=
  match st.pipeline with
  | some _ => (st, [], .ok ())
  | none =>
    match loadResult with
    | .error e => (st, [], .error e)
    | .ok p => ({ st with pipeline := some p }, [Event.load], .ok ())

/-- `settings.output_path` default. -/
def outputPathStr : String := "./output"

/-- The eight-byte PNG file signature that `PIL` writes first when saving
with `format='PNG'`. -/
def pngSignature : List Nat := [137, 80, 78, 71, 13, 10, 26, 10]

/-- The byte buffer produced by `image.save(img_bytes, format='PNG')`. -/
def pngEncode (img : RawImage) : List Nat := pngSignature ++ img.body

/-- Enhancer invocation recorded when `enhance_prompt=True`. -/
def enhanceEvents (prompt0 : String) (style : Option String) (enhanceFlag : Bool) :
    List Event :=
  if enhanceFlag then [Event.enhanceCall prompt0 style] else []

/-- The working prompt of `generate`: the enhancer output when
`enhance_prompt` is set, else the `", <style> style"` suffix — which the
Python truthiness test skips for an empty style string. -/
def workingPrompt (enhanceResult : Except Unit String) (prompt0 : String)
    (style : Option String) (enhanceFlag : Bool) : String :=
  if enhanceFlag then enhance_prompt enhanceResult prompt0 style
  else match style with
    | some s => if s = "" then prompt0 else prompt0 ++ ", " ++ s ++ " style"
    | none => prompt0

/-- `f"generated_{timestamp}_{width}x{height}.png"`. -/
def artifactFilename (timestamp : Nat) (width height : Int) : String :=
  "generated_" ++ toString timestamp ++ "_" ++ toString width ++ "x" ++
    toString height ++ ".png"

/-- `str(settings.output_path / filename)`. -/
def artifactPath (timestamp : Nat) (width height : Int) : String :=
  outputPathStr ++ "/" ++ artifactFilename timestamp width height

/-- Body of `ImageGenerator.generate` after `load_model` has succeeded:
prompt enhancement, size parsing, the inference call, persistence and
encoding, and the two `except` handlers. -/
def generateAfterLoad (o : Oracle) (prompt0 : String) (style : Option String)
    (size : String) (steps : Int) (guidance : ℚ) (enhanceFlag : Bool) :
    List Event × Except GenError GenResult :=
  match get_image_size_tuple (some size) with
  | none => (enhanceEvents prompt0 style enhanceFlag, .error .invalidRequest)
  | some wh =>
    let prompt := workingPrompt o.enhanceResult prompt0 style enhanceFlag
    let runEv := Event.run prompt wh.1 wh.2 steps guidance
    match o.runResult with
    | .error .oom =>
      (enhanceEvents prompt0 style enhanceFlag ++ [runEv, Event.emptyCache],
       .error .memoryExhausted)
    | .error .other =>
      (enhanceEvents prompt0 style enhanceFlag ++ [runEv], .error .inference)
    | .ok image =>
      (enhanceEvents prompt0 style enhanceFlag ++
         [runEv, Event.save (artifactPath o.timestamp wh.1 wh.2)],
       .ok { image_path := artifactPath o.timestamp wh.1 wh.2,
             image_data := pngEncode image, prompt := prompt,
             size := toString wh.1 ++ "x" ++ toString wh.2,
             generation_time := o.duration, steps := steps, guidance_scale := guidance })

/-- `ImageGenerator.generate`: lazy `load_model()`, then the body.  Only
`load_model` touches `self.pipeline`; neither `except` handler does. -/
def generate (o : Oracle) (st : GenState) (prompt : String) (style : Option String)
    (size : String) (steps : Int) (guidance : ℚ) (enhanceFlag : Bool) :
    GenState × List Event × Except GenError GenResult :=
  match load_model o.loadResult st with
  | (st', _, .error _) => (st', [], .error .modelLoad)
  | (st', loadEvs, .ok _) =>
    let body := generateAfterLoad o prompt style size steps guidance enhanceFlag
    (st', loadEvs ++ body.1, body.2)

/-- Loop of `ImageGenerator.generate_batch`, carrying the item index for
the progress print (`Event.itemStart`).  `await self.generate(...)`
raising makes the loop body re-raise at once: a failed item gets no
batch-level cache clear and no later item runs.  After a successful item
the cache is cleared when CUDA is available. -/
def generateBatchGo (oracles : Nat → Oracle) (style : Option String) (size : String)
    (steps : Int) (guidance : ℚ) (enhanceFlag : Bool) :
    Nat → GenState → List String → GenState × List Event × Except GenError (List GenResult)
  | _, st, [] => (st, [], .ok [])
  | i, st, p :: rest =>
    let r := generate (oracles i) st p style size steps guidance enhanceFlag
    match r.2.2 with
    | .error e => (r.1, Event.itemStart i :: r.2.1, .error e)
    | .ok res =>
      let clearEvs : List Event := if r.1.cudaAvailable then [Event.emptyCache] else []
      let next := generateBatchGo oracles style size steps guidance enhanceFlag (i + 1) r.1 rest
      (next.1, (Event.itemStart i :: r.2.1) ++ clearEvs ++ next.2.1,
       next.2.2.map (fun rs => res :: rs))

/-- `ImageGenerator.generate_batch`: sequential loop over the prompts with
the same keyword arguments for every item. -/
def generate_batch (oracles : Nat → Oracle) (st : GenState) (prompts : List String)
    (style : Option String) (size : String) (steps : Int) (guidance : ℚ)
    (enhanceFlag : Bool) : GenState × List Event × Except GenError (List GenResult) :=
  generateBatchGo oracles style size steps guidance enhanceFlag 0 st prompts

/-- `ImageGenerator.unload_model`: drops the pipeline reference and clears
the CUDA cache when available; a no-op when already unloaded. -/
def unload_model (st : GenState) : GenState × List Event :=
  match st.pipeline with
  | none => (st, [])
  | some _ =>
    ({ st with pipeline := none }, if st.cudaAvailable then [Event.emptyCache] else [])

/-- Defaults declared on the `ImageGenerator.generate` signature. -/
def generateDefaultSize : String := "1024x1024"

/-- Default `steps` of `ImageGenerator.generate`. -/
def generateDefaultSteps : Int := 30

/-- Default `guidance_scale` of `ImageGenerator.generate`. -/
def generateDefaultGuidance : ℚ := 7

/-- Default `enhance_prompt` flag of `ImageGenerator.generate`. -/
def generateDefaultEnhance : Bool := true

/-- Event classifiers used to count observable effects. -/
def isRunEv : Event → Bool
  | .run _ _ _ _ _ => true
  | _ => false

/-- `Event.emptyCache` classifier. -/
def isClearEv : Event → Bool
  | .emptyCache => true
  | _ => false

/-- `Event.load` classifier. -/
def isLoadEv : Event → Bool
  | .load => true
  | _ => false

/-- Number of pipeline inference attempts in a trace. -/
def countRuns (evs : List Event) : Nat := (evs.filter isRunEv).length

/-- Number of `torch.cuda.empty_cache()` calls in a trace. -/
def countCacheClears (evs : List Event) : Nat := (evs.filter isClearEv).length

/-- Number of underlying model loads in a trace. -/
def countLoads (evs : List Event) : Nat := (evs.filter isLoadEv).length

/-- Indices of the batch items started, in order. -/
def itemStarts (evs : List Event) : List Nat :=
  evs.filterMap (fun e => match e with | .itemStart i => some i | _ => none)

/-- JSON-ish argument values arriving at the MCP tool boundary (string,
integer, boolean, array-of-string — the types used by the tool schemas). -/
inductive JsonVal where
  | str (s : String)
  | int (n : Int)
  | bool (b : Bool)
  | arr (xs : List String)
deriving DecidableEq

/-- Python `str()` / f-string rendering of an argument value. -/
def pyStr : JsonVal → String
  | .str s => s
  | .int n => toString n
  | .bool true => "True"
  | .bool false => "False"
  | .arr xs => "[" ++ String.intercalate ", " (xs.map (fun x => "'" ++ x ++ "'")) ++ "]"

/-- The `arguments` dict of a tool call. -/
def ArgMap : Type := List (String × JsonVal)

/-- `arguments.get(k)` — `none` models both a missing key and the
`KeyError` of `arguments[k]`. -/
def lookupArg (k : String) (args : ArgMap) : Option JsonVal :=
  (List.find? (fun p => p.1 == k) args).map (fun p => p.2)

/-- Per-tool input schema as declared in `handle_list_tools`. -/
structure ToolSchema where
  propNames : List String
  requiredNames : List String
deriving DecidableEq

/-- The static tool registry of `mcp/server.py::handle_list_tools`. -/
def toolSchemas : List (String × ToolSchema) :=
  [("generate_image",
    { propNames := ["prompt", "style", "size", "steps"], requiredNames := ["prompt"] }),
   ("enhance_prompt",
    { propNames := ["basic_prompt", "style_preference"], requiredNames := ["basic_prompt"] }),
   ("create_social_post",
    { propNames := ["theme", "platform", "tone", "include_hashtags"],
      requiredNames := ["theme", "platform"] }),
   ("schedule_content",
    { propNames := ["content_id", "schedule_time", "platforms"],
      requiredNames := ["content_id", "schedule_time", "platforms"] }),
   ("get_content_calendar", { propNames := ["date_range"], requiredNames := [] }),
   ("brand_assets",
    { propNames := ["image_path", "template", "add_logo"], requiredNames := ["image_path"] }),
   ("analyze_content_performance",
    { propNames := ["time_period", "metric"], requiredNames := [] })]

/-- The closed set of operation names. -/
def registeredToolNames : List String := toolSchemas.map (fun p => p.1)

/-- Schema lookup by operation name. -/
def toolSchemaOf (name : String) : Option ToolSchema :=
  (List.find? (fun p => p.1 == name) toolSchemas).map (fun p => p.2)

/-- Required argument names of an operation (empty for unknown names). -/
def requiredArgsOf (name : String) : List String :=
  match toolSchemaOf name with
  | some sch => sch.requiredNames
  | none => []

/-- Collaborator invocations observable from `handle_call_tool`.  For the
two paths that reach `ImageGenerator.generate`, the record holds the
effective parameters of that invocation: the four values the caller
passes plus the `guidance_scale`/`enhance_prompt` defaults that
`generate`'s own signature supplies because the caller omits them. -/
inductive CollabCall where
  | genGenerate (prompt : JsonVal) (style : Option JsonVal) (size : JsonVal)
      (steps : JsonVal) (guidance : ℚ) (enhanceFlag : Bool)
  | genEnhance (basic_prompt : JsonVal) (style_preference : Option JsonVal)
  | captionGenerate (theme platform tone include_hashtags : JsonVal)
  | schedule (content_id schedule_time platforms : JsonVal)
  | getCalendar (date_range : JsonVal)
  | applyBranding (image_path template add_logo : JsonVal)
  | analyzePerformance (time_period metric : JsonVal)
deriving DecidableEq

/-- Dispatch-layer failures: the `ValueError` for an unknown tool, the
`KeyError` for a missing required argument, a propagated generator error,
and a stand-in for a dynamic-typing failure inside an already-invoked
collaborator (outside this model's scope). -/
inductive DispatchError where
  | unknownOperation (name : String)
  | missingArgument (key : String)
  | downstream (e : GenError)
  | runtimeTypeFault
deriving DecidableEq

/-- One element of the heterogeneous MCP response sequence. -/
inductive ContentPart where
  | text (s : String)
  | image (data : List Nat) (mime : String)
deriving DecidableEq

/-- External collaborator outcomes for one dispatch: the shared
`ImageGenerator` instance's oracle and state, and the opaque results of
the scheduler / compositor / caption-generator black boxes. -/
structure ServerEnv where
  genOracle : Oracle
  genState : GenState
  captionResult : String
  scheduleResult : String
  calendarResult : String
  brandingResult : String

/-- `mcp/server.py::analyze_performance`. -/
def analyze_performance (time_period metric : String) : String :=
  "Analysis for " ++ time_period ++ ": " ++ metric ++ " trending upward"

/-- `generate` invoked from the dispatch layer: runs the generator model
when the supplied values have the runtime types the code path expects
(`str` prompt/size, `str`-or-absent style, `int` steps); `none` when the
values are mistyped, in which case the Python call would fail dynamically
inside the collaborator. -/
def invokeGenerate (env : ServerEnv) (promptArg : JsonVal) (styleArg : Option JsonVal)
    (sizeArg stepsArg : JsonVal) :
    Option (GenState × List Event × Except GenError GenResult) :=
  match promptArg, styleArg, sizeArg, stepsArg with
  | .str p, none, .str sz, .int k =>
    some (generate env.genOracle env.genState p none sz k
      generateDefaultGuidance generateDefaultEnhance)
  | .str p, some (.str s), .str sz, .int k =>
    some (generate env.genOracle env.genState p (some s) sz k
      generateDefaultGuidance generateDefaultEnhance)
  | _, _, _, _ => none

/-- `mcp/server.py::handle_call_tool`.  Returns the generator state after
the call, the collaborator invocations performed, and the response or the
raised error.  Required-argument subscripts (`arguments[k]`) are evaluated
before the collaborator call, so a missing key raises `KeyError` with an
empty invocation list; an unrecognized name raises `ValueError`. -/
def handle_call_tool (env : ServerEnv) (name : String) (args : ArgMap) :
    GenState × List CollabCall × Except DispatchError (List ContentPart) :=
  if name = "generate_image" then
    match lookupArg "prompt" args with
    | none => (env.genState, [], .error (.missingArgument "prompt"))
    | some promptArg =>
      let styleArg := lookupArg "style" args
      let sizeArg := (lookupArg "size" args).getD (.str "1024x1024")
      let stepsArg := (lookupArg "steps" args).getD (.int 30)
      let call := CollabCall.genGenerate promptArg styleArg sizeArg stepsArg
        generateDefaultGuidance generateDefaultEnhance
      match invokeGenerate env promptArg styleArg sizeArg stepsArg with
      | some (st', _, .ok r) =>
        (st', [call], .ok [.text ("Generated image: " ++ r.image_path),
                           .image r.image_data "image/png"])
      | some (st', _, .error e) => (st', [call], .error (.downstream e))
      | none => (env.genState, [call], .error .runtimeTypeFault)
  else if name = "enhance_prompt" then
    match lookupArg "basic_prompt" args with
    | none => (env.genState, [], .error (.missingArgument "basic_prompt"))
    | some bp =>
      let sp := lookupArg "style_preference" args
      -- enhance_prompt only ever interpolates its arguments into strings,
      -- so any runtime type flows through via f-string rendering
      let enhanced := enhance_prompt env.genOracle.enhanceResult (pyStr bp) (sp.map pyStr)
      (env.genState, [CollabCall.genEnhance bp sp],
       .ok [.text ("Enhanced prompt: " ++ enhanced)])
  else if name = "create_social_post" then
    match lookupArg "theme" args with
    | none => (env.genState, [], .error (.missingArgument "theme"))
    | some theme =>
      match lookupArg "platform" args with
      | none => (env.genState, [], .error (.missingArgument "platform"))
      | some platform =>
        let tone := (lookupArg "tone" args).getD (.str "professional")
        let hashtags := (lookupArg "include_hashtags" args).getD (.bool true)
        let imgPrompt := pyStr theme ++ " content for " ++ pyStr platform
        let styleStr := if tone = JsonVal.str "professional" then "professional" else "creative"
        let genCall := CollabCall.genGenerate (.str imgPrompt) (some (.str styleStr))
          (.str generateDefaultSize) (.int generateDefaultSteps)
          generateDefaultGuidance generateDefaultEnhance
        match generate env.genOracle env.genState imgPrompt (some styleStr)
            generateDefaultSize generateDefaultSteps
            generateDefaultGuidance generateDefaultEnhance with
        | (st', _, .ok r) =>
          (st', [genCall, CollabCall.captionGenerate theme platform tone hashtags],
           .ok [.text ("Created post: " ++ env.captionResult),
                .image r.image_data "image/png"])
        | (st', _, .error e) => (st', [genCall], .error (.downstream e))
  else if name = "schedule_content" then
    match lookupArg "content_id" args with
    | none => (env.genState, [], .error (.missingArgument "content_id"))
    | some cid =>
      match lookupArg "schedule_time" args with
      | none => (env.genState, [], .error (.missingArgument "schedule_time"))
      | some stime =>
        match lookupArg "platforms" args with
        | none => (env.genState, [], .error (.missingArgument "platforms"))
        | some plats =>
          (env.genState, [CollabCall.schedule cid stime plats],
           .ok [.text ("Scheduled: " ++ env.scheduleResult)])
  else if name = "get_content_calendar" then
    let dr := (lookupArg "date_range" args).getD (.str "this_week")
    (env.genState, [CollabCall.getCalendar dr],
     .ok [.text ("Calendar: " ++ env.calendarResult)])
  else if name = "brand_assets" then
    match lookupArg "image_path" args with
    | none => (env.genState, [], .error (.missingArgument "image_path"))
    | some ip =>
      let tmpl := (lookupArg "template" args).getD (.str "minimal")
      let logo := (lookupArg "add_logo" args).getD (.bool true)
      (env.genState, [CollabCall.applyBranding ip tmpl logo],
       .ok [.text ("Branded image: " ++ env.brandingResult)])
  else if name = "analyze_content_performance" then
    let tp := (lookupArg "time_period" args).getD (.str "week")
    let m := (lookupArg "metric" args).getD (.str "engagement")
    (env.genState, [CollabCall.analyzePerformance tp m],
     .ok [.text ("Performance: " ++ analyze_performance (pyStr tp) (pyStr m))])
  else
    (env.genState, [], .error (.unknownOperation name))

/-- Concrete collaborator outcomes used to evaluate the model at sample
inputs: load succeeds, the enhancer service fails (exercising the
fallback), inference succeeds with a one-byte payload. -/
def sampleImage : RawImage := { body := [1] }

/-- Oracle whose inference call succeeds. -/
def sampleOracleOk : Oracle :=
  { loadResult := .ok (), enhanceResult := .error (), runResult := .ok sampleImage,
    timestamp := 111, duration := 2 }

/-- Oracle whose inference call fails with a generic exception. -/
def sampleOracleFail : Oracle :=
  { sampleOracleOk with runResult := .error .other }

/-- Oracle whose inference call exhausts device memory. -/
def sampleOracleOom : Oracle :=
  { sampleOracleOk with runResult := .error .oom }

/-- A fresh generator (pipeline not loaded) on a CUDA machine. -/
def freshState : GenState := { pipeline := none, cudaAvailable := true }

/-- A generator whose model is already loaded, on a CUDA machine. -/
def loadedState : GenState := { pipeline := some (), cudaAvailable := true }

/-- A concrete server environment for sample evaluations. -/
def sampleEnv : ServerEnv :=
  { genOracle := sampleOracleOk, genState := freshState, captionResult := "cap",
    scheduleResult := "sch", calendarResult := "cal", brandingResult := "brand" }

lemma load_model_ok_eq (lr : Except Unit Unit) (st : GenState) (h : lr = Except.ok ()) :
    load_model lr st =
      ({ st with pipeline := some () },
       (if st.pipeline.isSome then ([] : List Event) else [Event.load]), Except.ok ()) := by
  subst h
  rcases st with ⟨p, c⟩
  cases p with
  | none => rfl
  | some u => rfl

lemma generate_eq (o : Oracle) (st : GenState) (p : String) (style : Option String)
    (size : String) (steps : Int) (g : ℚ) (ef : Bool)
    (h : o.loadResult = Except.ok ()) :
    generate o st p style size steps g ef =
      ({ st with pipeline := some () },
       (if st.pipeline.isSome then ([] : List Event) else [Event.load]) ++
         (generateAfterLoad o p style size steps g ef).1,
       (generateAfterLoad o p style size steps g ef).2) := by
  unfold generate
  rw [load_model_ok_eq o.loadResult st h]

lemma generateAfterLoad_bad (o : Oracle) (p : String) (style : Option String)
    (size : String) (steps : Int) (g : ℚ) (ef : Bool)
    (hbad : get_image_size_tuple (some size) = none) :
    generateAfterLoad o p style size steps g ef =
      (enhanceEvents p style ef, Except.error GenError.invalidRequest) := by
  simp [generateAfterLoad, hbad]

lemma generateAfterLoad_ok (o : Oracle) (p : String) (style : Option String)
    (size : String) (steps : Int) (g : ℚ) (ef : Bool) (wh : Int × Int) (img : RawImage)
    (hsize : get_image_size_tuple (some size) = some wh)
    (hrun : o.runResult = Except.ok img) :
    generateAfterLoad o p style size steps g ef =
      (enhanceEvents p style ef ++
         [Event.run (workingPrompt o.enhanceResult p style ef) wh.1 wh.2 steps g,
          Event.save (artifactPath o.timestamp wh.1 wh.2)],
       Except.ok { image_path := artifactPath o.timestamp wh.1 wh.2,
                   image_data := pngEncode img,
                   prompt := workingPrompt o.enhanceResult p style ef,
                   size := toString wh.1 ++ "x" ++ toString wh.2,
                   generation_time := o.duration, steps := steps, guidance_scale := g }) := by
  simp [generateAfterLoad, hsize, hrun]

lemma generateAfterLoad_err (o : Oracle) (p : String) (style : Option String)
    (size : String) (steps : Int) (g : ℚ) (ef : Bool) (wh : Int × Int) (e : RunErr)
    (hsize : get_image_size_tuple (some size) = some wh)
    (hrun : o.runResult = Except.error e) :
    generateAfterLoad o p style size steps g ef =
      (enhanceEvents p style ef ++
         (Event.run (workingPrompt o.enhanceResult p style ef) wh.1 wh.2 steps g ::
           if e = RunErr.oom then [Event.emptyCache] else []),
       Except.error (runErrToGenError e)) := by
  cases e <;> simp [generateAfterLoad, hsize, hrun, runErrToGenError]

lemma countRuns_append (a b : List Event) : countRuns (a ++ b) = countRuns a + countRuns b := by
  simp [countRuns, List.filter_append]

lemma countCacheClears_append (a b : List Event) :
    countCacheClears (a ++ b) = countCacheClears a + countCacheClears b := by
  simp [countCacheClears, List.filter_append]

lemma countLoads_append (a b : List Event) :
    countLoads (a ++ b) = countLoads a + countLoads b := by
  simp [countLoads, List.filter_append]

lemma itemStarts_append (a b : List Event) :
    itemStarts (a ++ b) = itemStarts a ++ itemStarts b := by
  simp [itemStarts, List.filterMap_append]

lemma enhanceEvents_counts (p : String) (style : Option String) (ef : Bool) :
    countRuns (enhanceEvents p style ef) = 0 ∧
    countCacheClears (enhanceEvents p style ef) = 0 ∧
    itemStarts (enhanceEvents p style ef) = [] := by
  cases ef <;> simp [enhanceEvents, countRuns, countCacheClears, itemStarts, isRunEv, isClearEv]

lemma loadEvs_counts (b : Bool) :
    countRuns (if b then ([] : List Event) else [Event.load]) = 0 ∧
    countCacheClears (if b then ([] : List Event) else [Event.load]) = 0 ∧
    itemStarts (if b then ([] : List Event) else [Event.load]) = [] := by
  cases b <;> simp [countRuns, countCacheClears, itemStarts, isRunEv, isClearEv]

lemma generate_ok_parts (o : Oracle) (st : GenState) (p : String) (style : Option String)
    (size : String) (steps : Int) (g : ℚ) (ef : Bool) (wh : Int × Int) (img : RawImage)
    (h : o.loadResult = Except.ok ())
    (hsize : get_image_size_tuple (some size) = some wh)
    (hrun : o.runResult = Except.ok img) :
    (generate o st p style size steps g ef).1 = { st with pipeline := some () } ∧
    (∃ res, (generate o st p style size steps g ef).2.2 = Except.ok res) ∧
    countRuns (generate o st p style size steps g ef).2.1 = 1 ∧
    countCacheClears (generate o st p style size steps g ef).2.1 = 0 ∧
    itemStarts (generate o st p style size steps g ef).2.1 = [] := by
  rw [generate_eq o st p style size steps g ef h,
      generateAfterLoad_ok o p style size steps g ef wh img hsize hrun]
  refine ⟨rfl, ⟨_, rfl⟩, ?_, ?_, ?_⟩ <;>
    cases hp : st.pipeline.isSome <;> cases ef <;>
      simp [countRuns_append, countCacheClears_append, itemStarts_append,
        enhanceEvents, countRuns, countCacheClears, itemStarts, isRunEv, isClearEv]

lemma generate_err_parts (o : Oracle) (st : GenState) (p : String) (style : Option String)
    (size : String) (steps : Int) (g : ℚ) (ef : Bool) (wh : Int × Int) (e : RunErr)
    (h : o.loadResult = Except.ok ())
    (hsize : get_image_size_tuple (some size) = some wh)
    (hrun : o.runResult = Except.error e) :
    (generate o st p style size steps g ef).1 = { st with pipeline := some () } ∧
    (generate o st p style size steps g ef).2.2 = Except.error (runErrToGenError e) ∧
    countRuns (generate o st p style size steps g ef).2.1 = 1 ∧
    countCacheClears (generate o st p style size steps g ef).2.1 =
      (if e = RunErr.oom then 1 else 0) ∧
    itemStarts (generate o st p style size steps g ef).2.1 = [] := by
  rw [generate_eq o st p style size steps g ef h,
      generateAfterLoad_err o p style size steps g ef wh e hsize hrun]
  refine ⟨rfl, rfl, ?_, ?_, ?_⟩ <;>
    cases hp : st.pipeline.isSome <;> cases ef <;> cases e <;>
      simp [countRuns_append, countCacheClears_append, itemStarts_append,
        enhanceEvents, countRuns, countCacheClears, itemStarts, isRunEv, isClearEv]

lemma clearEvs_counts (b : Bool) :
    countCacheClears (if b then [Event.emptyCache] else []) = (if b then 1 else 0) ∧
    countRuns (if b then [Event.emptyCache] else []) = 0 ∧
    itemStarts (if b then [Event.emptyCache] else []) = [] := by
  cases b <;> simp [countCacheClears, countRuns, itemStarts, isClearEv, isRunEv]

lemma itemStartEv_counts (i : Nat) :
    countCacheClears [Event.itemStart i] = 0 ∧ countRuns [Event.itemStart i] = 0 ∧
    itemStarts [Event.itemStart i] = [i] := by
  simp [countCacheClears, countRuns, itemStarts, isClearEv, isRunEv]

lemma range_map_shift (i n : Nat) :
    (List.range (n + 1)).map (fun j => i + j) =
      i :: (List.range n).map (fun j => i + 1 + j) := by
  rw [List.range_succ_eq_map, List.map_cons, List.map_map]
  refine congrArg₂ _ (by omega) (List.map_congr_left (fun a _ => ?_))
  simp [Function.comp]
  omega

lemma batchGo_allOk (oracles : Nat → Oracle) (style : Option String) (size : String)
    (steps : Int) (g : ℚ) (ef : Bool) (wh : Int × Int)
    (hsize : get_image_size_tuple (some size) = some wh)
    (hload : ∀ j, (oracles j).loadResult = Except.ok ()) :
    ∀ (prompts : List String) (i : Nat) (st : GenState),
      (∀ j, j < prompts.length → ∃ img, (oracles (i + j)).runResult = Except.ok img) →
      ∃ stf evs rs,
        generateBatchGo oracles style size steps g ef i st prompts = (stf, evs, Except.ok rs) ∧
        countCacheClears evs = (if st.cudaAvailable then prompts.length else 0) ∧
        countRuns evs = prompts.length ∧
        itemStarts evs = (List.range prompts.length).map (fun j => i + j) ∧
        rs.length = prompts.length := by
  intro prompts
  induction prompts with
  | nil =>
    intro i st _
    exact ⟨st, [], [], rfl, by cases st.cudaAvailable <;>
      simp [countCacheClears, countRuns, itemStarts], by simp [countRuns],
      by simp [itemStarts], rfl⟩
  | cons p rest ih =>
    intro i st hok
    obtain ⟨img, himg⟩ := by simpa using hok 0 (by simp)
    obtain ⟨hst, ⟨res, hres⟩, hruns, hclears, hstarts⟩ :=
      generate_ok_parts (oracles i) st p style size steps g ef wh img (hload i) hsize himg
    have hok' : ∀ j, j < rest.length → ∃ img2, (oracles (i + 1 + j)).runResult = Except.ok img2 := by
      intro j hj
      have hx := hok (j + 1) (by simp; omega)
      rwa [show i + (j + 1) = i + 1 + j by omega] at hx
    obtain ⟨stf, evs, rs, hgo, hc, hr, hs, hl⟩ :=
      ih (i + 1) ((generate (oracles i) st p style size steps g ef).1) hok'
    have hcuda : (generate (oracles i) st p style size steps g ef).1.cudaAvailable =
      st.cudaAvailable := by rw [hst]
    refine ⟨stf, ([Event.itemStart i] ++ (generate (oracles i) st p style size steps g ef).2.1) ++
      (if (generate (oracles i) st p style size steps g ef).1.cudaAvailable then
        [Event.emptyCache] else []) ++ evs, res :: rs, ?_, ?_, ?_, ?_, by simp [hl]⟩
    · simp only [generateBatchGo, hres, hgo]
      rfl
    · rw [countCacheClears_append, countCacheClears_append, countCacheClears_append,
        (itemStartEv_counts i).1, hclears, (clearEvs_counts _).1, hc, hcuda]
      cases st.cudaAvailable <;> simp <;> omega
    · rw [countRuns_append, countRuns_append, countRuns_append,
        (itemStartEv_counts i).2.1, hruns, (clearEvs_counts _).2.1, hr]
      simp [Nat.add_comm]
    · rw [itemStarts_append, itemStarts_append, itemStarts_append,
        (itemStartEv_counts i).2.2, hstarts, (clearEvs_counts _).2.2, hs,
        List.length_cons, range_map_shift]
      simp

lemma batchGo_firstFail (oracles : Nat → Oracle) (style : Option String) (size : String)
    (steps : Int) (g : ℚ) (ef : Bool) (wh : Int × Int)
    (hsize : get_image_size_tuple (some size) = some wh)
    (hload : ∀ j, (oracles j).loadResult = Except.ok ()) :
    ∀ (prompts : List String) (k i : Nat) (st : GenState) (e : RunErr),
      k < prompts.length →
      (∀ j, j < k → ∃ img, (oracles (i + j)).runResult = Except.ok img) →
      (oracles (i + k)).runResult = Except.error e →
      ∃ stf evs,
        generateBatchGo oracles style size steps g ef i st prompts =
          (stf, evs, Except.error (runErrToGenError e)) ∧
        countRuns evs = k + 1 ∧
        itemStarts evs = (List.range (k + 1)).map (fun j => i + j) ∧
        countCacheClears evs =
          (if st.cudaAvailable then k else 0) + (if e = RunErr.oom then 1 else 0) := by
  intro prompts
  induction prompts with
  | nil =>
    intro k i st e hk _ _
    exact absurd hk (by simp)
  | cons p rest ih =>
    intro k i st e hk hok hfail
    cases k with
    | zero =>
      have hfail0 : (oracles i).runResult = Except.error e := by simpa using hfail
      obtain ⟨hst, hres, hruns, hclears, hstarts⟩ :=
        generate_err_parts (oracles i) st p style size steps g ef wh e (hload i) hsize hfail0
      refine ⟨(generate (oracles i) st p style size steps g ef).1,
        [Event.itemStart i] ++ (generate (oracles i) st p style size steps g ef).2.1,
        ?_, ?_, ?_, ?_⟩
      · simp only [generateBatchGo, hres]
        rfl
      · rw [countRuns_append, (itemStartEv_counts i).2.1, hruns]
      · rw [itemStarts_append, (itemStartEv_counts i).2.2, hstarts]
        rw [show (1 : Nat) = 0 + 1 from rfl, range_map_shift]
        simp
      · rw [countCacheClears_append, (itemStartEv_counts i).1, hclears]
        cases st.cudaAvailable <;> cases e <;> simp
    | succ k' =>
      obtain ⟨img, himg⟩ := by simpa using hok 0 (by omega)
      obtain ⟨hst, ⟨res, hres⟩, hruns, hclears, hstarts⟩ :=
        generate_ok_parts (oracles i) st p style size steps g ef wh img (hload i) hsize himg
      have hok' : ∀ j, j < k' → ∃ img2, (oracles (i + 1 + j)).runResult = Except.ok img2 := by
        intro j hj
        have hx := hok (j + 1) (by omega)
        rwa [show i + (j + 1) = i + 1 + j by omega] at hx
      have hfail' : (oracles (i + 1 + k')).runResult = Except.error e := by
        rwa [show i + (k' + 1) = i + 1 + k' by omega] at hfail
      obtain ⟨stf, evs, hgo, hr, hs, hc⟩ :=
        ih k' (i + 1) ((generate (oracles i) st p style size steps g ef).1) e
          (by simpa using Nat.lt_of_succ_lt_succ hk) hok' hfail'
      have hcuda : (generate (oracles i) st p style size steps g ef).1.cudaAvailable =
        st.cudaAvailable := by rw [hst]
      refine ⟨stf, ([Event.itemStart i] ++ (generate (oracles i) st p style size steps g ef).2.1) ++
        (if (generate (oracles i) st p style size steps g ef).1.cudaAvailable then
          [Event.emptyCache] else []) ++ evs, ?_, ?_, ?_, ?_⟩
      · simp only [generateBatchGo, hres, hgo]
        rfl
      · rw [countRuns_append, countRuns_append, countRuns_append,
          (itemStartEv_counts i).2.1, hruns, (clearEvs_counts _).2.1, hr]
        simp [Nat.add_comm]
      · rw [itemStarts_append, itemStarts_append, itemStarts_append,
          (itemStartEv_counts i).2.2, hstarts, (clearEvs_counts _).2.2, hs,
          range_map_shift i (k' + 1)]
        simp
      · rw [countCacheClears_append, countCacheClears_append, countCacheClears_append,
          (itemStartEv_counts i).1, hclears, (clearEvs_counts _).1, hc, hcuda]
        cases st.cudaAvailable <;> cases e <;> simp <;> omega

/-- C4: on any failure of the external text service, `enhance_prompt`
returns the deterministic fallback — the original prompt extended by the
fixed qualifier suffix — which is non-empty and strictly contains the
original prompt text. -/
theorem enhance_prompt_fallback (b : String) (sp : Option String) :
    enhance_prompt (Except.error ()) b sp = b ++ fallbackSuffix ∧
    0 < (enhance_prompt (Except.error ()) b sp).length ∧
    (∃ t : String, enhance_prompt (Except.error ()) b sp = b ++ t ∧ t ≠ "") ∧
    b.length < (enhance_prompt (Except.error ()) b sp).length := by
  refine ⟨rfl, ?_, ⟨fallbackSuffix, rfl, by decide⟩, ?_⟩ <;>
    simp [enhance_prompt, String.length_append] <;>
    have h47 : 0 < fallbackSuffix.length := by decide
  · omega
  · omega

/-- C5: `load_model` is idempotent — starting from `Unloaded`, two
successive calls perform exactly one underlying load, and the second call
is a no-op returning the state of the first unchanged, with no events. -/
theorem load_model_idempotent (lr1 lr2 : Except Unit Unit) (st : GenState)
    (h1 : lr1 = Except.ok ()) (h0 : st.pipeline = none) :
    countLoads ((load_model lr1 st).2.1 ++ (load_model lr2 (load_model lr1 st).1).2.1) = 1 ∧
    load_model lr2 (load_model lr1 st).1 =
      ((load_model lr1 st).1, [], Except.ok ()) := by
  subst h1
  rcases st with ⟨pp, c⟩
  cases pp with
  | none => exact ⟨rfl, rfl⟩
  | some u => simp at h0

theorem load_model_idempotent_witness :
    countLoads ((load_model (Except.ok ()) freshState).2.1 ++
      (load_model (Except.ok ()) (load_model (Except.ok ()) freshState).1).2.1) = 1 ∧
    load_model (Except.ok ()) (load_model (Except.ok ()) freshState).1 =
      ((load_model (Except.ok ()) freshState).1, [], Except.ok ()) :=
  load_model_idempotent (Except.ok ()) (Except.ok ()) freshState rfl rfl

/-- C7: when inference exhausts device memory, `generate` clears the
transient CUDA cache immediately after the failed run and re-signals the
error as `MemoryExhaustedError` — a label distinct from the generic
`InferenceError` — with exactly one inference attempt (no retry). -/
theorem generate_oom_policy (o : Oracle) (st : GenState) (p : String) (style : Option String)
    (size : String) (steps : Int) (g : ℚ) (ef : Bool) (wh : Int × Int)
    (hload : o.loadResult = Except.ok ())
    (hsize : get_image_size_tuple (some size) = some wh)
    (hoom : o.runResult = Except.error RunErr.oom) :
    (generate o st p style size steps g ef).2.2 = Except.error GenError.memoryExhausted ∧
    (∃ evs0, (generate o st p style size steps g ef).2.1 =
       evs0 ++ [Event.run (workingPrompt o.enhanceResult p style ef) wh.1 wh.2 steps g,
                Event.emptyCache] ∧
       countCacheClears evs0 = 0) ∧
    countRuns (generate o st p style size steps g ef).2.1 = 1 ∧
    GenError.memoryExhausted ≠ GenError.inference := by
  rw [generate_eq o st p style size steps g ef hload,
      generateAfterLoad_err o p style size steps g ef wh RunErr.oom hsize hoom]
  refine ⟨rfl, ⟨(if st.pipeline.isSome then ([] : List Event) else [Event.load]) ++
    enhanceEvents p style ef, ?_, ?_⟩, ?_, by decide⟩
  · simp [runErrToGenError]
  · rw [countCacheClears_append, (loadEvs_counts _).2.1, (enhanceEvents_counts p style ef).2.1]
  · dsimp only
    rw [countRuns_append, (loadEvs_counts _).1, countRuns_append,
      (enhanceEvents_counts p style ef).1]
    simp [countRuns, isRunEv]

theorem generate_oom_policy_witness :
    (generate sampleOracleOom loadedState "p" none "512x512" 20 7 false).2.2 =
      Except.error GenError.memoryExhausted ∧
    (∃ evs0, (generate sampleOracleOom loadedState "p" none "512x512" 20 7 false).2.1 =
       evs0 ++ [Event.run (workingPrompt sampleOracleOom.enhanceResult "p" none false)
                  (512, 512).1 (512, 512).2 20 7,
                Event.emptyCache] ∧
       countCacheClears evs0 = 0) ∧
    countRuns (generate sampleOracleOom loadedState "p" none "512x512" 20 7 false).2.1 = 1 ∧
    GenError.memoryExhausted ≠ GenError.inference :=
  generate_oom_policy sampleOracleOom loadedState "p" none "512x512" 20 7 false
    (512, 512) rfl rfl rfl

/-- C10: after any `generate` call on a loaded (or successfully loading)
handle the pipeline stays loaded whatever the outcome — memory exhaustion
only clears caches — and only `unload_model` returns the handle to the
unloaded state. -/
theorem generate_preserves_loaded (o : Oracle) (st : GenState) (p : String)
    (style : Option String) (size : String) (steps : Int) (g : ℚ) (ef : Bool)
    (h : st.pipeline = some () ∨ o.loadResult = Except.ok ()) :
    (generate o st p style size steps g ef).1.pipeline = some () ∧
    (∀ st' : GenState, (unload_model st').1.pipeline = none) := by
  constructor
  · rcases st with ⟨pp, c⟩
    cases pp with
    | some u =>
      cases u
      rcases hlr : o.loadResult with _ | _ <;>
        simp [generate, load_model, hlr]
    | none =>
      rcases h with h | h
      · simp at h
      · simp [generate, load_model, h]
  · intro st'
    rcases st' with ⟨pp, c⟩
    cases pp <;> simp [unload_model]

theorem generate_preserves_loaded_witness :
    (generate sampleOracleOom loadedState "p" none "512x512" 20 7 true).1.pipeline = some () ∧
    (∀ st' : GenState, (unload_model st').1.pipeline = none) :=
  generate_preserves_loaded sampleOracleOom loadedState "p" none "512x512" 20 7 true
    (Or.inl rfl)

/-- C1 (amended): for every size string the parser rejects (not two
`x`-separated integers; the empty string instead falls back to the default
size), `generate` signals `InvalidRequestError` before any inference run
is attempted — but only after the model load has already occurred when
the handle was unloaded; non-positive components are accepted, not
rejected. -/
theorem generate_size_validation_amended (o : Oracle) (st : GenState) (p : String)
    (style : Option String) (size : String) (steps : Int) (g : ℚ) (ef : Bool)
    (hload : o.loadResult = Except.ok ())
    (hbad : get_image_size_tuple (some size) = none) :
    (generate o st p style size steps g ef).2.2 = Except.error GenError.invalidRequest ∧
    countRuns (generate o st p style size steps g ef).2.1 = 0 ∧
    (st.pipeline = none → Event.load ∈ (generate o st p style size steps g ef).2.1) := by
  rw [generate_eq o st p style size steps g ef hload,
      generateAfterLoad_bad o p style size steps g ef hbad]
  refine ⟨rfl, ?_, ?_⟩
  · dsimp only
    rw [countRuns_append, (loadEvs_counts _).1, (enhanceEvents_counts p style ef).1]
  · intro hnone
    simp [hnone]

theorem generate_size_validation_amended_witness :
    (generate sampleOracleOk freshState "p" none "abc" 30 7 false).2.2 =
      Except.error GenError.invalidRequest ∧
    countRuns (generate sampleOracleOk freshState "p" none "abc" 30 7 false).2.1 = 0 ∧
    (freshState.pipeline = none →
      Event.load ∈ (generate sampleOracleOk freshState "p" none "abc" 30 7 false).2.1) :=
  generate_size_validation_amended sampleOracleOk freshState "p" none "abc" 30 7 false
    rfl rfl

/-- C1 counterexample: with size `"abc"` the call does error, yet the
underlying model load has already happened (`Event.load` is in the
trace), contradicting "without invoking the Model Handle"; and the size
`"0x512"` — malformed per the claim because `0` is not positive — is not
rejected at all: generation succeeds. -/
theorem generate_size_validation_cex :
    ((generate sampleOracleOk freshState "p" none "abc" 30 7 false).2.2 =
       Except.error GenError.invalidRequest ∧
     Event.load ∈ (generate sampleOracleOk freshState "p" none "abc" 30 7 false).2.1) ∧
    (generate sampleOracleOk freshState "p" none "0x512" 30 7 false).2.2 =
      Except.ok { image_path := "./output/generated_111_0x512.png",
                  image_data := pngEncode sampleImage, prompt := "p", size := "0x512",
                  generation_time := 2, steps := 30, guidance_scale := 7 } :=
  ⟨⟨rfl, by decide⟩, rfl⟩

/-- C8: a successful `generate` with a canonically written valid size
`"<w>x<h>"` returns a result whose `size`, `steps` and `guidance_scale`
equal the request, whose non-empty `image_path` embeds the generation
timestamp and the resolved width and height, and whose encoded byte
buffer is non-empty. -/
theorem generate_success_contract (o : Oracle) (st : GenState) (p : String)
    (style : Option String) (size : String) (steps : Int) (g : ℚ) (ef : Bool)
    (w h : Int) (img : RawImage)
    (hload : o.loadResult = Except.ok ())
    (hsize : get_image_size_tuple (some size) = some (w, h))
    (hcanon : size = toString w ++ "x" ++ toString h)
    (hw : 0 < w) (hh : 0 < h)
    (hrun : o.runResult = Except.ok img) :
    ∃ res, (generate o st p style size steps g ef).2.2 = Except.ok res ∧
      res.size = size ∧ res.steps = steps ∧ res.guidance_scale = g ∧
      res.image_path = artifactPath o.timestamp w h ∧
      res.image_path =
        outputPathStr ++ "/" ++
          ("generated_" ++ toString o.timestamp ++ "_" ++ toString w ++ "x" ++
            toString h ++ ".png") ∧
      res.image_path ≠ "" ∧
      res.image_data ≠ [] := by
  rw [generate_eq o st p style size steps g ef hload,
      generateAfterLoad_ok o p style size steps g ef (w, h) img hsize hrun]
  refine ⟨_, rfl, hcanon.symm, rfl, rfl, rfl, rfl, ?_, ?_⟩
  · intro hc
    have hlen := congrArg String.length hc
    simp [String.length_append, artifactPath, artifactFilename, outputPathStr] at hlen
    exact absurd hlen.1 (by decide)
  · simp [pngEncode, pngSignature]

theorem generate_success_contract_witness :
    ∃ res, (generate sampleOracleOk freshState "a cute robot painting on a canvas, digital art"
        none "512x512" 20 7 false).2.2 = Except.ok res ∧
      res.size = "512x512" ∧ res.steps = 20 ∧ res.guidance_scale = 7 ∧
      res.image_path = artifactPath sampleOracleOk.timestamp 512 512 ∧
      res.image_path =
        outputPathStr ++ "/" ++
          ("generated_" ++ toString sampleOracleOk.timestamp ++ "_" ++ toString (512 : Int) ++
            "x" ++ toString (512 : Int) ++ ".png") ∧
      res.image_path ≠ "" ∧
      res.image_data ≠ [] :=
  generate_success_contract sampleOracleOk freshState
    "a cute robot painting on a canvas, digital art" none "512x512" 20 7 false
    512 512 sampleImage rfl rfl rfl (by decide) (by decide) rfl

/-- C6: `generate_batch` processes requests strictly in input order; when
the first failure occurs at item `k`, that error propagates to the caller,
items `0..k` are exactly the ones started, and exactly `k+1` inference
attempts occur — nothing after item `k` is processed. -/
theorem generate_batch_abort_on_failure (oracles : Nat → Oracle) (st : GenState)
    (prompts : List String) (style : Option String) (size : String) (steps : Int)
    (g : ℚ) (ef : Bool) (wh : Int × Int) (k : Nat) (e : RunErr)
    (hsize : get_image_size_tuple (some size) = some wh)
    (hload : ∀ j, (oracles j).loadResult = Except.ok ())
    (hk : k < prompts.length)
    (hok : ∀ j, j < k → ∃ img, (oracles j).runResult = Except.ok img)
    (hfail : (oracles k).runResult = Except.error e) :
    (generate_batch oracles st prompts style size steps g ef).2.2 =
      Except.error (runErrToGenError e) ∧
    itemStarts (generate_batch oracles st prompts style size steps g ef).2.1 =
      List.range (k + 1) ∧
    countRuns (generate_batch oracles st prompts style size steps g ef).2.1 = k + 1 := by
  obtain ⟨stf, evs, hgo, hr, hs, _⟩ :=
    batchGo_firstFail oracles style size steps g ef wh hsize hload prompts k 0 st e hk
      (by simpa using hok) (by simpa using hfail)
  rw [generate_batch, hgo]
  refine ⟨rfl, ?_, hr⟩
  rw [hs]
  simpa using List.map_congr_left (fun a _ => by omega)

theorem generate_batch_abort_on_failure_witness :
    (generate_batch (fun j => if j = 1 then sampleOracleFail else sampleOracleOk)
        freshState ["p0", "p1", "p2"] none "512x512" 20 7 false).2.2 =
      Except.error (runErrToGenError RunErr.other) ∧
    itemStarts (generate_batch (fun j => if j = 1 then sampleOracleFail else sampleOracleOk)
        freshState ["p0", "p1", "p2"] none "512x512" 20 7 false).2.1 =
      List.range (1 + 1) ∧
    countRuns (generate_batch (fun j => if j = 1 then sampleOracleFail else sampleOracleOk)
        freshState ["p0", "p1", "p2"] none "512x512" 20 7 false).2.1 = 1 + 1 :=
  generate_batch_abort_on_failure (fun j => if j = 1 then sampleOracleFail else sampleOracleOk)
    freshState ["p0", "p1", "p2"] none "512x512" 20 7 false (512, 512) 1 RunErr.other
    rfl (fun j => by by_cases hj : j = 1 <;> simp [hj, sampleOracleFail, sampleOracleOk])
    (by decide)
    (fun j hj => by
      have : j = 0 := by omega
      exact ⟨sampleImage, by simp [this, sampleOracleOk]⟩)
    (by simp [sampleOracleFail, sampleOracleOk])

/-- C2 counterexample: a one-item batch whose item fails with a generic
inference error performs zero cache clears even though CUDA is available,
refuting "cleared exactly once per item, regardless of whether that item
succeeded or failed". -/
theorem generate_batch_cache_cex :
    countCacheClears (generate_batch (fun _ => sampleOracleFail) loadedState ["p"]
      none "512x512" 20 7 false).2.1 = 0 ∧
    (["p"] : List String).length = 1 ∧
    loadedState.cudaAvailable = true :=
  ⟨rfl, rfl, rfl⟩

/-- C2 (amended): with CUDA available, `generate_batch` clears the device
cache exactly once after each successful item; an item that fails receives
no batch-level clear and aborts the batch — a memory-exhaustion failure is
cleared once inside `generate` itself, a generic failure not at all. -/
theorem generate_batch_cache_discipline (oracles : Nat → Oracle) (st : GenState)
    (prompts : List String) (style : Option String) (size : String) (steps : Int)
    (g : ℚ) (ef : Bool) (wh : Int × Int)
    (hcuda : st.cudaAvailable = true)
    (hsize : get_image_size_tuple (some size) = some wh)
    (hload : ∀ j, (oracles j).loadResult = Except.ok ()) :
    ((∀ j, j < prompts.length → ∃ img, (oracles j).runResult = Except.ok img) →
       countCacheClears (generate_batch oracles st prompts style size steps g ef).2.1 =
         prompts.length ∧
       ∃ rs, (generate_batch oracles st prompts style size steps g ef).2.2 =
         Except.ok rs) ∧
    (∀ k e, k < prompts.length →
      (∀ j, j < k → ∃ img, (oracles j).runResult = Except.ok img) →
      (oracles k).runResult = Except.error e →
      countCacheClears (generate_batch oracles st prompts style size steps g ef).2.1 =
        k + (if e = RunErr.oom then 1 else 0) ∧
      (generate_batch oracles st prompts style size steps g ef).2.2 =
        Except.error (runErrToGenError e)) := by
  constructor
  · intro hok
    obtain ⟨stf, evs, rs, hgo, hc, _, _, _⟩ :=
      batchGo_allOk oracles style size steps g ef wh hsize hload prompts 0 st
        (by simpa using hok)
    rw [generate_batch, hgo]
    rw [hcuda] at hc
    exact ⟨by simpa using hc, rs, rfl⟩
  · intro k e hk hok hfail
    obtain ⟨stf, evs, hgo, _, _, hc⟩ :=
      batchGo_firstFail oracles style size steps g ef wh hsize hload prompts k 0 st e hk
        (by simpa using hok) (by simpa using hfail)
    rw [generate_batch, hgo]
    rw [hcuda] at hc
    exact ⟨by simpa using hc, rfl⟩

theorem generate_batch_cache_discipline_witness :
    (countCacheClears (generate_batch (fun _ => sampleOracleOk) freshState ["p0", "p1"]
        none "512x512" 20 7 false).2.1 = 2 ∧
     ∃ rs, (generate_batch (fun _ => sampleOracleOk) freshState ["p0", "p1"]
        none "512x512" 20 7 false).2.2 = Except.ok rs) ∧
    (countCacheClears (generate_batch (fun _ => sampleOracleOom) freshState ["p0", "p1"]
        none "512x512" 20 7 false).2.1 = 0 + (if RunErr.oom = RunErr.oom then 1 else 0) ∧
     (generate_batch (fun _ => sampleOracleOom) freshState ["p0", "p1"]
        none "512x512" 20 7 false).2.2 = Except.error (runErrToGenError RunErr.oom)) :=
  ⟨(generate_batch_cache_discipline (fun _ => sampleOracleOk) freshState ["p0", "p1"]
      none "512x512" 20 7 false (512, 512) rfl rfl (fun _ => rfl)).1
      (fun j _ => ⟨sampleImage, rfl⟩),
   (generate_batch_cache_discipline (fun _ => sampleOracleOom) freshState ["p0", "p1"]
      none "512x512" 20 7 false (512, 512) rfl rfl (fun _ => rfl)).2 0 RunErr.oom
      (by decide) (fun j hj => absurd hj (by omega)) rfl⟩

/-- C3: dispatching an unregistered operation name signals
`UnknownOperationError` with no collaborator invoked, and dispatching a
registered name with a missing required argument signals
`InvalidArgumentsError` (a `KeyError` on the argument dict) before any
side-effecting call — the collaborator trace is empty. -/
theorem dispatch_validation (env : ServerEnv) (name : String) (args : ArgMap) :
    (name ∉ registeredToolNames →
      handle_call_tool env name args =
        (env.genState, [], Except.error (DispatchError.unknownOperation name))) ∧
    (name ∈ registeredToolNames →
      (∃ k, k ∈ requiredArgsOf name ∧ lookupArg k args = none) →
      (handle_call_tool env name args).2.1 = [] ∧
      ∃ k, lookupArg k args = none ∧
        (handle_call_tool env name args).2.2 =
          Except.error (DispatchError.missingArgument k)) := by
  constructor
  · intro hn
    have h1 : ¬ name = "generate_image" := fun h => hn (h ▸ (by decide))
    have h2 : ¬ name = "enhance_prompt" := fun h => hn (h ▸ (by decide))
    have h3 : ¬ name = "create_social_post" := fun h => hn (h ▸ (by decide))
    have h4 : ¬ name = "schedule_content" := fun h => hn (h ▸ (by decide))
    have h5 : ¬ name = "get_content_calendar" := fun h => hn (h ▸ (by decide))
    have h6 : ¬ name = "brand_assets" := fun h => hn (h ▸ (by decide))
    have h7 : ¬ name = "analyze_content_performance" := fun h => hn (h ▸ (by decide))
    simp [handle_call_tool, h1, h2, h3, h4, h5, h6, h7]
  · intro hreg hmiss
    have hcases : name = "generate_image" ∨ name = "enhance_prompt" ∨
        name = "create_social_post" ∨ name = "schedule_content" ∨
        name = "get_content_calendar" ∨ name = "brand_assets" ∨
        name = "analyze_content_performance" := by
      simpa [registeredToolNames, toolSchemas] using hreg
    rcases hcases with rfl | rfl | rfl | rfl | rfl | rfl | rfl
    · cases hp : lookupArg "prompt" args with
      | none =>
        exact ⟨by simp [handle_call_tool, hp], "prompt", hp, by simp [handle_call_tool, hp]⟩
      | some v =>
        obtain ⟨k, hk, hnone⟩ := hmiss
        rw [show requiredArgsOf "generate_image" = ["prompt"] from by decide] at hk
        simp at hk
        subst hk
        rw [hp] at hnone
        cases hnone
    · cases hp : lookupArg "basic_prompt" args with
      | none =>
        exact ⟨by simp [handle_call_tool, hp], "basic_prompt", hp,
          by simp [handle_call_tool, hp]⟩
      | some v =>
        obtain ⟨k, hk, hnone⟩ := hmiss
        rw [show requiredArgsOf "enhance_prompt" = ["basic_prompt"] from by decide] at hk
        simp at hk
        subst hk
        rw [hp] at hnone
        cases hnone
    · cases ht : lookupArg "theme" args with
      | none =>
        exact ⟨by simp [handle_call_tool, ht], "theme", ht, by simp [handle_call_tool, ht]⟩
      | some v1 =>
        cases hp : lookupArg "platform" args with
        | none =>
          exact ⟨by simp [handle_call_tool, ht, hp], "platform", hp,
            by simp [handle_call_tool, ht, hp]⟩
        | some v2 =>
          obtain ⟨k, hk, hnone⟩ := hmiss
          rw [show requiredArgsOf "create_social_post" = ["theme", "platform"]
            from by decide] at hk
          simp at hk
          rcases hk with rfl | rfl
          · rw [ht] at hnone; cases hnone
          · rw [hp] at hnone; cases hnone
    · cases hc : lookupArg "content_id" args with
      | none =>
        exact ⟨by simp [handle_call_tool, hc], "content_id", hc,
          by simp [handle_call_tool, hc]⟩
      | some v1 =>
        cases hs : lookupArg "schedule_time" args with
        | none =>
          exact ⟨by simp [handle_call_tool, hc, hs], "schedule_time", hs,
            by simp [handle_call_tool, hc, hs]⟩
        | some v2 =>
          cases hpl : lookupArg "platforms" args with
          | none =>
            exact ⟨by simp [handle_call_tool, hc, hs, hpl], "platforms", hpl,
              by simp [handle_call_tool, hc, hs, hpl]⟩
          | some v3 =>
            obtain ⟨k, hk, hnone⟩ := hmiss
            rw [show requiredArgsOf "schedule_content" =
              ["content_id", "schedule_time", "platforms"] from by decide] at hk
            simp at hk
            rcases hk with rfl | rfl | rfl
            · rw [hc] at hnone; cases hnone
            · rw [hs] at hnone; cases hnone
            · rw [hpl] at hnone; cases hnone
    · obtain ⟨k, hk, hnone⟩ := hmiss
      rw [show requiredArgsOf "get_content_calendar" = [] from by decide] at hk
      cases hk
    · cases hi : lookupArg "image_path" args with
      | none =>
        exact ⟨by simp [handle_call_tool, hi], "image_path", hi,
          by simp [handle_call_tool, hi]⟩
      | some v =>
        obtain ⟨k, hk, hnone⟩ := hmiss
        rw [show requiredArgsOf "brand_assets" = ["image_path"] from by decide] at hk
        simp at hk
        subst hk
        rw [hi] at hnone
        cases hnone
    · obtain ⟨k, hk, hnone⟩ := hmiss
      rw [show requiredArgsOf "analyze_content_performance" = [] from by decide] at hk
      cases hk

theorem dispatch_validation_witness :
    (handle_call_tool sampleEnv "post_everywhere" [] =
      (sampleEnv.genState, [], Except.error (DispatchError.unknownOperation "post_everywhere"))) ∧
    ((handle_call_tool sampleEnv "generate_image" [("steps", JsonVal.int 20)]).2.1 = [] ∧
     ∃ k, lookupArg k [("steps", JsonVal.int 20)] = none ∧
       (handle_call_tool sampleEnv "generate_image" [("steps", JsonVal.int 20)]).2.2 =
         Except.error (DispatchError.missingArgument k)) :=
  ⟨(dispatch_validation sampleEnv "post_everywhere" []).1 (by decide),
   (dispatch_validation sampleEnv "generate_image" [("steps", JsonVal.int 20)]).2
     (by decide) ⟨"prompt", by decide, rfl⟩⟩

/-- C9: every dispatch of `generate_image` with a prompt invokes the
generator with exactly the recorded call — enhancement enabled and
guidance scale 7, both taken from `generate`'s own defaults because the
dispatch layer never passes them — and the tool's schema offers no
`enhance_prompt` or `guidance_scale` property. -/
theorem generate_image_dispatch_fixed (env : ServerEnv) (args : ArgMap) (pv : JsonVal)
    (hp : lookupArg "prompt" args = some pv) :
    (handle_call_tool env "generate_image" args).2.1 =
      [CollabCall.genGenerate pv (lookupArg "style" args)
        ((lookupArg "size" args).getD (JsonVal.str "1024x1024"))
        ((lookupArg "steps" args).getD (JsonVal.int 30))
        generateDefaultGuidance generateDefaultEnhance] ∧
    generateDefaultGuidance = 7 ∧
    generateDefaultEnhance = true ∧
    (∀ sch, toolSchemaOf "generate_image" = some sch →
      "enhance_prompt" ∉ sch.propNames ∧ "guidance_scale" ∉ sch.propNames) := by
  refine ⟨?_, rfl, rfl, ?_⟩
  · rcases hinv : invokeGenerate env pv (lookupArg "style" args)
        ((lookupArg "size" args).getD (JsonVal.str "1024x1024"))
        ((lookupArg "steps" args).getD (JsonVal.int 30)) with _ | ⟨⟨st', evs, res⟩⟩
    · simp [handle_call_tool, hp, hinv]
    · cases res <;> simp [handle_call_tool, hp, hinv]
  · intro sch hsch
    rw [show toolSchemaOf "generate_image" =
      some { propNames := ["prompt", "style", "size", "steps"], requiredNames := ["prompt"] }
      from by decide] at hsch
    cases hsch
    exact ⟨by decide, by decide⟩

theorem generate_image_dispatch_fixed_witness :
    (handle_call_tool sampleEnv "generate_image" [("prompt", JsonVal.str "hi")]).2.1 =
      [CollabCall.genGenerate (JsonVal.str "hi")
        (lookupArg "style" [("prompt", JsonVal.str "hi")])
        ((lookupArg "size" [("prompt", JsonVal.str "hi")]).getD (JsonVal.str "1024x1024"))
        ((lookupArg "steps" [("prompt", JsonVal.str "hi")]).getD (JsonVal.int 30))
        generateDefaultGuidance generateDefaultEnhance] ∧
    generateDefaultGuidance = 7 ∧
    generateDefaultEnhance = true ∧
    (∀ sch, toolSchemaOf "generate_image" = some sch →
      "enhance_prompt" ∉ sch.propNames ∧ "guidance_scale" ∉ sch.propNames) :=
  generate_image_dispatch_fixed sampleEnv [("prompt", JsonVal.str "hi")]
    (JsonVal.str "hi") rfl
